import Mathlib

/-
  Shallow embedding of the Django e-commerce API layer
  (src/api/serializers.py and src/api/views.py) and proofs about it.

  The repository ships only the serializer and view modules; the model and
  permission modules (api/models.py, api/permissions.py) are referenced but
  absent. Where a definition depends on them it is modelled from the spec and
  marked so in its doc comment.
-/

namespace Api

/-- A wire-format field value: the payloads moved between validated data,
model constructors and representations. A stored password is either a
plaintext persisted as-is or the output of the password hasher; the hasher is
framework infrastructure, so its output is modelled symbolically as the
`hashed` constructor applied to the input plaintext. -/
inductive StoredPassword where
  | plain (s : String)
  | hashed (s : String)
  deriving DecidableEq

/-- Embeds django.contrib.auth.hashers.make_password as used by
UserViewSet.perform_create: maps a plaintext to its hash. -/
def make_password (s : String) : StoredPassword := StoredPassword.hashed s

/-- Values carried in keyword/validated data dictionaries. -/
inductive FieldValue where
  | nat (n : Nat)
  | str (s : String)
  | bool (b : Bool)
  | pwd (p : StoredPassword)
  deriving DecidableEq

/-- Embeds DynamicModelSerializer.get_field_names (src/api/serializers.py):
given the dynamic allow-list popped from the constructor kwargs (None when the
caller supplied no `fields` argument) and the default field names computed by
the base ModelSerializer, it removes every name in
`set(field_names) - allowed` and keeps the rest in order. -/
def get_field_names (dynamic_fields : Option (List String))
    (field_names : List String) : List String :=
  match dynamic_fields with
  | none => field_names
  | some allowed =>
      field_names.filter (fun x => ¬ (x ∈ field_names ∧ x ∉ allowed))

/-- Modelled from the spec: the Product model (api/models.py is not under
src/) carries id, name, brand, price, an availability flag, quantity and
description, belongs to a vendor and has a customers relation. -/
def product_model_fields : List String :=
  ["id", "name", "brand", "price", "is_available", "quantity",
   "description", "vendor", "customers"]

/-- Embeds ProductSerializer.Meta.exclude (src/api/serializers.py). -/
def product_exclude : List String := ["description", "quantity", "customers"]

/-- The default field set of ProductSerializer: every model field except the
excluded ones, as the base ModelSerializer computes it. -/
def product_default_fields : List String :=
  product_model_fields.filter (fun x => x ∉ product_exclude)

/-- Embeds ProductSerializer.get_custom_fields (src/api/serializers.py). -/
def product_custom_fields : List String :=
  ["id", "name", "is_available", "brand", "price"]

/-- A Product record. Field list modelled from the spec (the model module is
absent); the fields match product_model_fields, with the customers relation
omitted because no embedded operation reads or writes it. -/
structure ProductRec where
  id : Nat
  name : String
  brand : String
  price : Nat
  is_available : Bool
  quantity : Nat
  description : String
  vendor : Nat
  deriving DecidableEq

/-- Reads one named field off a Product record, as the serializer does per
field name when building `.data`. -/
def product_field_value (p : ProductRec) (f : String) : FieldValue :=
  if f = "id" then FieldValue.nat p.id
  else if f = "name" then FieldValue.str p.name
  else if f = "brand" then FieldValue.str p.brand
  else if f = "price" then FieldValue.nat p.price
  else if f = "is_available" then FieldValue.bool p.is_available
  else if f = "quantity" then FieldValue.nat p.quantity
  else if f = "description" then FieldValue.str p.description
  else if f = "vendor" then FieldValue.nat p.vendor
  else FieldValue.str ""

/-- ProductSerializer output: the record rendered over the effective field
names, i.e. the default field set narrowed by the optional dynamic
allow-list. -/
def product_serializer_data (dynamic_fields : Option (List String))
    (p : ProductRec) : List (String × FieldValue) :=
  (get_field_names dynamic_fields product_default_fields).map
    (fun f => (f, product_field_value p f))

/-- The dynamic-field filter keeps exactly the default names that are in the
allow-list, in default order. -/
theorem get_field_names_some (allowed field_names : List String) :
    get_field_names (some allowed) field_names =
      field_names.filter (fun x => x ∈ allowed) := by
  simp only [get_field_names]
  apply List.filter_congr
  intro x hx
  simp [hx]

theorem mem_get_field_names_some (allowed field_names : List String)
    (x : String) :
    x ∈ get_field_names (some allowed) field_names ↔
      x ∈ field_names ∧ x ∈ allowed := by
  rw [get_field_names_some]
  simp

/-- A Size record: a variant row of a Product. Field list modelled from the
spec (the model module is absent): its own size label, quantity, availability
flag and the owning Product (`variant`), held as the product id. -/
structure SizeRec where
  id : Nat
  size : String
  quantity : Nat
  is_available : Bool
  variant : Nat
  deriving DecidableEq

/-- The persistent store as the embedded operations see it. -/
structure Store where
  products : List ProductRec
  sizes : List SizeRec
  deriving DecidableEq

/-- The error every call of the shipped validate_size raises: the body reads
SizeChart.objects, but the module imports of serializers.py (lines 1-13) bind
only the serializers module and the ten model names, so SizeChart is an
unbound name. -/
def name_error_msg : String := "NameError: name SizeChart is not defined"

/-- Embeds SizeSerializer.validate_size as shipped (src/api/serializers.py
lines 89-92): evaluating the membership condition first evaluates
SizeChart.objects, and since SizeChart is never imported the call raises
NameError before either branch can run — for every label alike. -/
def validate_size (_value : String) : Except String String :=
  Except.error name_error_msg

/-- Modelled from the spec: the INTENDED size-label validation that the
shipped validate_size would perform were SizeChart imported — on write the
label must match an entry of the size vocabulary, else a ValidationError
"Invalid value for size". Kept for comparison with the shipped function; the
vocabulary is passed in as the list of SizeChart names. -/
def validate_size_intended (chart : List String) (value : String) :
    Except String String :=
  if value ∉ chart then Except.error "Invalid value for size"
  else Except.ok value

/-- The write attributes reaching SizeSerializer.validate: each key either
absent or carrying a deserialized value; `variant` is already the resolved
Product instance, as DRF hands model instances to validate. -/
structure SizeAttrs where
  size : Option String
  quantity : Option Nat
  is_available : Option Bool
  variant : Option ProductRec
  deriving DecidableEq

/-- The variant used by the inventory check:
`attrs.get("variant", None) or self.instance.variant`. When attrs carry no
variant, the instance field (a product id) is resolved against the store. -/
def resolved_variant (store : Store) (inst : Option SizeRec)
    (attrs : SizeAttrs) : Option ProductRec :=
  match attrs.variant with
  | some v => some v
  | none => inst.bind (fun i => store.products.find? (fun p => p.id = i.variant))

/-- The sum the check compares against:
`sum(x.quantity for x in queryset)` where the queryset is the sizes of the
variant, excluding the instance being updated when there is one. -/
def excluded_sum (store : Store) (inst : Option SizeRec) (vid : Nat) : Nat :=
  ((store.sizes.filter (fun s =>
      decide (s.variant = vid) &&
        (match inst with
         | some i => decide (s.id ≠ i.id)
         | none => true))).map (fun s => s.quantity)).sum

/-- The ValidationError message of the inventory check. -/
def inventory_error_msg : String :=
  "You cannot have more sizes for a product variant than product variant itself."

/-- Embeds SizeSerializer.validate (src/api/serializers.py lines 94-109).
Python truthiness: the body runs only when `quantity` is present and nonzero.
When neither attrs nor the instance yield a variant, Python would raise an
AttributeError on None; that branch is an error value here. -/
def size_validate (store : Store) (inst : Option SizeRec)
    (attrs : SizeAttrs) : Except String SizeAttrs :=
  match attrs.quantity with
  | none => Except.ok attrs
  | some q =>
    if q = 0 then Except.ok attrs
    else
      match resolved_variant store inst attrs with
      | none => Except.error "AttributeError: None has no attribute variant"
      | some v =>
        if excluded_sum store inst v.id + q > v.quantity then
          Except.error inventory_error_msg
        else Except.ok attrs

/-- ModelSerializer update semantics: each attribute present in validated_data
overwrites the matching field of the instance. -/
def apply_size_update (s : SizeRec) (attrs : SizeAttrs) : SizeRec :=
  { s with
    size := attrs.size.getD s.size
    quantity := attrs.quantity.getD s.quantity
    is_available := attrs.is_available.getD s.is_available
    variant := (attrs.variant.map (fun v => v.id)).getD s.variant }

/-- The full validation stage of a Size write, in DRF order: the field-level
validators run first on the fields present in the incoming data — for a
supplied size label that is the shipped validate_size, which always raises
NameError — and only then the object-level SizeSerializer.validate. -/
def size_run_validation (store : Store) (inst : Option SizeRec)
    (attrs : SizeAttrs) : Except String SizeAttrs :=
  match attrs.size with
  | some s =>
      match validate_size s with
      | Except.error e => Except.error e
      | Except.ok _ => size_validate store inst attrs
  | none => size_validate store inst attrs

/-- A Size update request through SizeSerializer: run the validation stage
(field validators, then validate), then persist the updated instance; on any
validation failure nothing is written. -/
def size_update (store : Store) (inst : SizeRec) (attrs : SizeAttrs) :
    Except String Store :=
  match size_run_validation store (some inst) attrs with
  | Except.error e => Except.error e
  | Except.ok a =>
      Except.ok { store with
        sizes := store.sizes.map (fun s =>
          if s.id = inst.id then apply_size_update s a else s) }

/-- A Size create request through SizeSerializer: run the validation stage
(field validators, then validate), then persist a new row built from the
validated attributes; on any validation failure nothing is written. A create
with no variant cannot be persisted (the relation is a required model
field). -/
def size_create (store : Store) (newId : Nat) (attrs : SizeAttrs) :
    Except String Store :=
  match size_run_validation store none attrs with
  | Except.error e => Except.error e
  | Except.ok a =>
      match a.variant with
      | none => Except.error "IntegrityError: variant is required"
      | some v =>
          Except.ok { store with
            sizes := store.sizes ++
              [{ id := newId
                 size := a.size.getD ""
                 quantity := a.quantity.getD 0
                 is_available := a.is_available.getD true
                 variant := v.id }] }

/-- The claimed inventory invariant over a store: every Product bounds the sum
of its Size quantities. -/
def invariant_holds (store : Store) : Bool :=
  store.products.all (fun p =>
    ((store.sizes.filter (fun s => s.variant = p.id)).map
      (fun s => s.quantity)).sum ≤ p.quantity)

/-- The requesting caller of an HTTP operation. -/
inductive Caller where
  | anonymous
  | user (id : Nat) (isAdmin : Bool)
  deriving DecidableEq

/-- A framework Response: status code plus the detail body. -/
structure HttpResponse where
  status : Nat
  detail : String
  deriving DecidableEq

/-- An Order record. Field list modelled from the spec (the model module is
absent): the authoring user and the cart snapshot it was created from. -/
structure OrderRec where
  id : Nat
  user : Nat
  cart : Nat
  deriving DecidableEq

/-- Embeds OrderViewSet.update (src/api/views.py lines 164-168): the handler
unconditionally returns the 405 response; it never reads the caller, the
request body or the store, and writes nothing. The permission module is
absent from src/; per the spec the method-not-allowed outcome is returned for
every caller regardless of authorization, so every caller reaches the
handler. -/
def order_update (_caller : Caller) (_body : List (String × FieldValue))
    (orders : List OrderRec) : HttpResponse × List OrderRec :=
  (⟨405, "Method \"PUT\" not allowed."⟩, orders)

/-- Embeds OrderViewSet.partial_update (src/api/views.py lines 170-174),
identically shaped to the PUT handler. -/
def order_patch (_caller : Caller) (_body : List (String × FieldValue))
    (orders : List OrderRec) : HttpResponse × List OrderRec :=
  (⟨405, "Method \"PATCH\" not allowed."⟩, orders)

/-- A User record. Field list modelled from the spec (the model module is
absent): identity plus the three role flags. -/
structure UserRec where
  id : Nat
  email : String
  password : StoredPassword
  is_active : Bool
  is_staff : Bool
  is_vendor : Bool
  deriving DecidableEq

/-- Embeds UserViewSet.queryset = User.objects.filter(is_active=True). -/
def user_queryset (users : List UserRec) : List UserRec :=
  users.filter (fun u => u.is_active)

/-- Embeds UserViewSet.destroy (src/api/views.py lines 42-46): get_object
draws the target from the view queryset (active users); the handler flips
is_active to false and saves, returning 204; the record is never removed. -/
def user_destroy (users : List UserRec) (pk : Nat) :
    Except String (HttpResponse × List UserRec) :=
  match (user_queryset users).find? (fun u => u.id = pk) with
  | none => Except.error "Not found."
  | some _ =>
      Except.ok (⟨204, ""⟩,
        users.map (fun u =>
          if u.id = pk then { u with is_active := false } else u))

/-- Modelled from the spec: the IsUser permission (api/permissions.py is not
under src/) passes when the caller is the target user itself. -/
def is_user_perm (caller : Caller) (target : UserRec) : Bool :=
  match caller with
  | Caller.anonymous => false
  | Caller.user cid _ => decide (cid = target.id)

/-- Whether the caller passes IsAdminUser. -/
def is_admin (caller : Caller) : Bool :=
  match caller with
  | Caller.anonymous => false
  | Caller.user _ a => a

/-- Embeds retrieve on UserViewSet: permission is OR(IsUser, IsAdminUser),
and get_object looks the pk up inside the view queryset of active users, so a
miss yields the not-found outcome for every caller, an admin included. -/
def user_retrieve (caller : Caller) (users : List UserRec) (pk : Nat) :
    Except String UserRec :=
  match (user_queryset users).find? (fun u => u.id = pk) with
  | none => Except.error "Not found."
  | some u =>
      if is_user_perm caller u || is_admin caller then Except.ok u
      else Except.error "Permission denied."

/-- Embeds list on UserViewSet (permission IsAdminUser): the base queryset of
active users is returned to an admin. -/
def user_list (caller : Caller) (users : List UserRec) :
    Except String (List UserRec) :=
  if is_admin caller then Except.ok (user_queryset users)
  else Except.error "Permission denied."

/-- A User create request as the wire carries it: the caller may also try to
supply the three role flags. -/
structure UserCreateRequest where
  email : String
  password : String
  is_active : Option Bool
  is_staff : Option Bool
  is_vendor : Option Bool
  deriving DecidableEq

/-- Embeds UserSerializer write handling (src/api/serializers.py lines
159-171): password is write-only but writable, email required, and is_active,
is_staff, is_vendor are read-only, so caller-supplied values for them are
dropped and never reach validated_data. -/
def user_validated_data (r : UserCreateRequest) : List (String × FieldValue) :=
  [("email", FieldValue.str r.email), ("password", FieldValue.str r.password)]

/-- Modelled from the spec: User model defaults (api/models.py is not under
src/) — active by default on signup, not staff, not vendor (the serializer
also declares default False for is_vendor). Construction starts from the
defaults and applies the supplied keyword data in order, later entries
overriding earlier ones as a dict merge does. Every key passed anywhere in
this development is a model field, so the unknown-keyword TypeError of the
Django constructor has no case here. -/
def user_model_create (nextId : Nat) (data : List (String × FieldValue)) :
    UserRec :=
  data.foldl (fun u kv =>
    match kv with
    | ("email", FieldValue.str s) => { u with email := s }
    | ("password", FieldValue.str s) => { u with password := StoredPassword.plain s }
    | ("password", FieldValue.pwd p) => { u with password := p }
    | ("is_active", FieldValue.bool b) => { u with is_active := b }
    | ("is_staff", FieldValue.bool b) => { u with is_staff := b }
    | ("is_vendor", FieldValue.bool b) => { u with is_vendor := b }
    | _ => u)
    { id := nextId, email := "", password := StoredPassword.plain "",
      is_active := true, is_staff := false, is_vendor := false }

/-- Embeds UserViewSet.perform_create (src/api/views.py lines 48-49):
serializer.save(password=make_password(validated_data["password"])) — the
keyword overrides the plaintext in validated_data with its hash before the
model row is created. -/
def user_perform_create (nextId : Nat) (r : UserCreateRequest) : UserRec :=
  user_model_create nextId
    (user_validated_data r ++
      [("password", FieldValue.pwd (make_password r.password))])

/-- A Vendor record. Modelled from the spec: the Vendor model (api/models.py
is not under src/) is a storefront owned by exactly one User through its
`owner` relation — VendorSerializer reads the `owner` field through
`source="owner.id"`, so the model field is named `owner`, not `user`. -/
structure VendorRec where
  id : Nat
  name : String
  owner : Option Nat
  deriving DecidableEq

/-- Construction of a Vendor row from keyword data, as
ModelClass._default_manager.create(**validated_data) performs it: the
writable model fields are accepted (`owner` is read-only on the serializer so
it never appears in validated_data, but the model constructor itself would
take it); any other keyword raises a TypeError, as the Django model
constructor does. -/
def vendor_assign (acc : Except String VendorRec) (kv : String × FieldValue) :
    Except String VendorRec :=
  match acc with
  | Except.error e => Except.error e
  | Except.ok v =>
      match kv with
      | ("name", FieldValue.str s) => Except.ok { v with name := s }
      | ("owner", FieldValue.nat n) => Except.ok { v with owner := some n }
      | (k, _) =>
          Except.error
            ("TypeError: Vendor() got an unexpected keyword argument " ++ k)

def vendor_model_create (nextId : Nat) (data : List (String × FieldValue)) :
    Except String VendorRec :=
  data.foldl vendor_assign
    (Except.ok { id := nextId, name := "", owner := none })

/-- Embeds VendorViewSet.perform_create (src/api/views.py lines 118-123):
serializer.save(user=user) merges the keyword `user` into validated_data
before the model row is created; after a successful save, a caller not yet
flagged as vendor has is_vendor flipped to true and saved. On an exception
nothing is persisted (the transaction is rolled back), so the flag code never
runs. -/
def vendor_perform_create (caller : UserRec)
    (validated : List (String × FieldValue)) (vendors : List VendorRec)
    (users : List UserRec) :
    Except String (List VendorRec × List UserRec) :=
  match vendor_model_create (vendors.length + 1)
      (validated ++ [("user", FieldValue.nat caller.id)]) with
  | Except.error e => Except.error e
  | Except.ok v =>
      let users2 :=
        if ¬ caller.is_vendor then
          users.map (fun u =>
            if u.id = caller.id then { u with is_vendor := true } else u)
        else users
      Except.ok (vendors ++ [v], users2)

/-- Embeds CustomRelatedField.to_internal_value (src/api/serializers.py lines
40-41) for the OrderItem product field: self.queryset.get(pk=data) over
Product.objects.all(); Django raises DoesNotExist when no row matches the
primary key. -/
def product_to_internal_value (products : List ProductRec) (data : Nat) :
    Except String ProductRec :=
  match products.find? (fun p => p.id = data) with
  | none => Except.error "Product matching query does not exist."
  | some p => Except.ok p

/-- Embeds CustomRelatedField.to_representation (src/api/serializers.py lines
43-46) for the OrderItem product field: the ProductSerializer applied to the
instance with fields=ProductSerializer.get_custom_fields(). -/
def product_to_representation (p : ProductRec) : List (String × FieldValue) :=
  product_serializer_data (some product_custom_fields) p

/-- Embeds ProductViewSet.queryset = Product.objects.filter(is_available=True)
(src/api/views.py lines 63-64). -/
def product_queryset (products : List ProductRec) : List ProductRec :=
  products.filter (fun p => p.is_available)

/-- Embeds list on ProductViewSet: permission is AllowAny, so every caller
gets the base queryset. -/
def product_list (_caller : Caller) (products : List ProductRec) :
    List ProductRec :=
  product_queryset products

/-- Embeds retrieve on ProductViewSet: permission is AllowAny and get_object
looks the pk up inside the view queryset, so an unavailable product yields
the not-found outcome for every caller. -/
def product_retrieve (_caller : Caller) (products : List ProductRec)
    (pk : Nat) : Except String ProductRec :=
  match (product_queryset products).find? (fun p => p.id = pk) with
  | none => Except.error "Not found."
  | some p => Except.ok p

/- ------------------------------------------------------------------ -/
/- Concrete fixtures used by closed theorems.                         -/
/- ------------------------------------------------------------------ -/

/-- Fixture product with room for ten size units. -/
def exP1 : ProductRec :=
  { id := 1, name := "Boot", brand := "Acme", price := 100,
    is_available := true, quantity := 10, description := "", vendor := 1 }

/-- Fixture product with room for one size unit. -/
def exP2 : ProductRec :=
  { id := 2, name := "Cap", brand := "Acme", price := 30,
    is_available := true, quantity := 1, description := "", vendor := 1 }

/-- Fixture size holding ten units of exP1. -/
def exSize : SizeRec :=
  { id := 1, size := "M", quantity := 10, is_available := true, variant := 1 }

/-- Fixture store satisfying the inventory invariant. -/
def exStore : Store := { products := [exP1, exP2], sizes := [exSize] }

/-- A Size update writing only a new variant, no quantity. -/
def exMoveAttrs : SizeAttrs :=
  { size := none, quantity := none, is_available := none, variant := some exP2 }

/-- Fixture active user. -/
def exUser : UserRec :=
  { id := 1, email := "a@example.com", password := StoredPassword.hashed "pw",
    is_active := true, is_staff := false, is_vendor := false }

/-- The fixture user after the soft delete. -/
def exUserAfter : UserRec :=
  { id := 1, email := "a@example.com", password := StoredPassword.hashed "pw",
    is_active := false, is_staff := false, is_vendor := false }

/- ------------------------------------------------------------------ -/
/- Claim theorems.                                                    -/
/- ------------------------------------------------------------------ -/

/-- C2: for every Order and every caller, update and partial-update return the
method-not-allowed response — status 405 with the matching detail body — with
the stored orders unchanged, identically regardless of the caller. -/
theorem C2_order_update_method_not_allowed (c : Caller)
    (body : List (String × FieldValue)) (orders : List OrderRec) :
    order_update c body orders =
      (⟨405, "Method \"PUT\" not allowed."⟩, orders) ∧
    order_patch c body orders =
      (⟨405, "Method \"PATCH\" not allowed."⟩, orders) :=
  ⟨rfl, rfl⟩

/-- C3: every call of the shipped validate_size fails with NameError, because
serializers.py never imports SizeChart — neither the claimed ValidationError
branch nor the success branch is reachable, for any label; the intended
validation modelled from the spec behaves as the claim says, exhibiting the
divergence at the label M over the vocabulary containing it. -/
theorem C3_validate_size_name_error :
    (∀ value : String, validate_size value = Except.error name_error_msg) ∧
    (∀ value : String,
        validate_size value ≠ Except.error "Invalid value for size") ∧
    (∀ value s : String, validate_size value ≠ Except.ok s) ∧
    validate_size_intended ["M"] "M" = Except.ok "M" ∧
    validate_size_intended ["M"] "XL" =
      Except.error "Invalid value for size" := by
  refine ⟨fun value => rfl, ?_, ?_, rfl, rfl⟩
  · intro value h
    exact absurd (Except.error.inj h) (by decide)
  · intro value s h
    exact Except.noConfusion h

/-- Witness for C3: the shipped validator crashes identically on a label the
vocabulary holds and on one it does not. -/
theorem C3_validate_size_name_error_witness :
    validate_size "M" = Except.error name_error_msg ∧
    validate_size "XXL" = Except.error name_error_msg :=
  ⟨C3_validate_size_name_error.1 "M", C3_validate_size_name_error.1 "XXL"⟩

/-- C6: with an explicit allow-list the dynamic serializer exposes exactly the
intersection of the default field set with the allow-list (fields outside the
default set cannot be added); with no allow-list it exposes the full default
set; and a Product representation narrowed to id and name contains exactly
those two fields. -/
theorem C6_dynamic_field_selection :
    (∀ (F fields : List String) (x : String),
        x ∈ get_field_names (some F) fields ↔ x ∈ fields ∧ x ∈ F) ∧
    (∀ fields : List String, get_field_names none fields = fields) ∧
    (∀ p : ProductRec,
        product_serializer_data (some ["id", "name"]) p =
          [("id", FieldValue.nat p.id), ("name", FieldValue.str p.name)]) ∧
    (∀ p : ProductRec,
        (product_serializer_data none p).map Prod.fst =
          product_default_fields) := by
  refine ⟨mem_get_field_names_some, fun fields => rfl, fun p => rfl, fun p => rfl⟩

/-- C1 counterexample: from a store satisfying the inventory invariant, a Size
update that writes only a new variant and no quantity is accepted by
SizeSerializer.validate (no ValidationError) and produces a store where the
sizes of product 2 sum to 10 while the product quantity is 1 — a state
reachable through these operations in which the invariant fails. -/
theorem C1_counterexample :
    invariant_holds exStore = true ∧
    size_update exStore exSize exMoveAttrs =
      Except.ok
        { products := [exP1, exP2],
          sizes := [{ id := 1, size := "M", quantity := 10,
                      is_available := true, variant := 2 }] } ∧
    invariant_holds
      { products := [exP1, exP2],
        sizes := [{ id := 1, size := "M", quantity := 10,
                    is_available := true, variant := 2 }] } = false := by
  refine ⟨rfl, rfl, rfl⟩

/-- C1 (amended): a Size update that omits the size label and writes a
nonzero quantity fails with the ValidationError naming the constraint
whenever the sum of the quantities of the variant's other Sizes (excluding
the instance being updated) plus the written quantity exceeds the variant's
quantity; a failed operation returns no store, so all stored quantities are
unchanged. Any Size write carrying a size label — every create included,
since the label is a required field there — fails earlier with the NameError
of the shipped validate_size, never reaching the inventory check. (The
invariant over all reachable states does not hold — the check is skipped
when no nonzero quantity is written; see the counterexample.) -/
theorem C1_inventory_check_on_write :
    (∀ (store : Store) (inst : SizeRec) (attrs : SizeAttrs) (q : Nat)
        (v : ProductRec),
        attrs.size = none →
        attrs.quantity = some q → q ≠ 0 →
        resolved_variant store (some inst) attrs = some v →
        excluded_sum store (some inst) v.id + q > v.quantity →
        size_update store inst attrs = Except.error inventory_error_msg) ∧
    (∀ (store : Store) (inst : SizeRec) (attrs : SizeAttrs) (s : String),
        attrs.size = some s →
        size_update store inst attrs = Except.error name_error_msg) ∧
    (∀ (store : Store) (newId : Nat) (attrs : SizeAttrs) (s : String),
        attrs.size = some s →
        size_create store newId attrs = Except.error name_error_msg) := by
  refine ⟨?_, ?_, ?_⟩
  · intro store inst attrs q v hs hq hq0 hv hsum
    simp [size_update, size_run_validation, size_validate, hs, hq, hq0, hv,
      hsum]
  · intro store inst attrs s hs
    simp [size_update, size_run_validation, validate_size, hs]
  · intro store newId attrs s hs
    simp [size_create, size_run_validation, validate_size, hs]

/-- Witness for the amended C1: on the fixture store a label-free overfull
update fails with the inventory message, and a write carrying a label fails
with the NameError on the update and the create path alike. -/
theorem C1_inventory_check_on_write_witness :
    size_update exStore exSize
      { size := none, quantity := some 3, is_available := none,
        variant := some exP2 } = Except.error inventory_error_msg ∧
    size_update exStore exSize
      { size := some "M", quantity := some 3, is_available := none,
        variant := some exP2 } = Except.error name_error_msg ∧
    size_create exStore 2
      { size := some "M", quantity := some 11, is_available := none,
        variant := some exP1 } = Except.error name_error_msg :=
  ⟨C1_inventory_check_on_write.1 exStore exSize
      { size := none, quantity := some 3, is_available := none,
        variant := some exP2 } 3 exP2 rfl rfl (by decide) rfl (by decide),
   C1_inventory_check_on_write.2.1 exStore exSize
      { size := some "M", quantity := some 3, is_available := none,
        variant := some exP2 } "M" rfl,
   C1_inventory_check_on_write.2.2 exStore 2
      { size := some "M", quantity := some 11, is_available := none,
        variant := some exP1 } "M" rfl⟩

/-- C9: given a resolvable variant, SizeSerializer.validate accepts the
attributes outright when the quantity is absent or zero, and raises the
inventory ValidationError exactly when a nonzero quantity is supplied whose
sum with the excluded-instance sum exceeds the variant's quantity. -/
theorem C9_validate_quantity_truthiness (store : Store) (inst : Option SizeRec)
    (attrs : SizeAttrs) (v : ProductRec)
    (hv : resolved_variant store inst attrs = some v) :
    ((attrs.quantity = none ∨ attrs.quantity = some 0) →
        size_validate store inst attrs = Except.ok attrs) ∧
    (size_validate store inst attrs = Except.error inventory_error_msg ↔
      ∃ q : Nat, attrs.quantity = some q ∧ q ≠ 0 ∧
        excluded_sum store inst v.id + q > v.quantity) := by
  cases hq : attrs.quantity with
  | none =>
      constructor
      · intro _
        simp [size_validate, hq]
      · simp [size_validate, hq]
  | some q =>
      by_cases hq0 : q = 0
      · subst hq0
        constructor
        · intro _
          simp [size_validate, hq]
        · simp [size_validate, hq]
      · constructor
        · intro h
          rcases h with h | h
          · exact Option.noConfusion h
          · exact absurd (Option.some.inj h) hq0
        · have hval : size_validate store inst attrs =
              (if excluded_sum store inst v.id + q > v.quantity
               then Except.error inventory_error_msg
               else Except.ok attrs) := by
            simp [size_validate, hq, hq0, hv]
          rw [hval]
          by_cases hsum : excluded_sum store inst v.id + q > v.quantity
          · rw [if_pos hsum]
            constructor
            · intro _
              exact ⟨q, rfl, hq0, hsum⟩
            · intro _
              rfl
          · rw [if_neg hsum]
            constructor
            · intro h
              exact Except.noConfusion h
            · rintro ⟨q2, hq2, hq20, hsum2⟩
              cases Option.some.inj hq2
              exact absurd hsum2 hsum

/-- Witness for C9 on the fixture store: a quantity-free update passes, and a
concrete overfull quantity is reported exactly by the iff. -/
theorem C9_validate_quantity_truthiness_witness :
    size_validate exStore (some exSize) exMoveAttrs = Except.ok exMoveAttrs :=
  (C9_validate_quantity_truthiness exStore (some exSize) exMoveAttrs exP2
      rfl).1 (Or.inl rfl)

/-- C4 counterexample: soft-deleting the fixture user flips is_active and
keeps the record, but the record is then NOT retrievable through the User
retrieve operation even for an admin caller — get_object draws from the
active-user queryset, so the lookup fails with the not-found outcome. -/
theorem C4_counterexample :
    user_destroy [exUser] 1 = Except.ok (⟨204, ""⟩, [exUserAfter]) ∧
    exUserAfter.is_active = false ∧
    user_retrieve (Caller.user 2 true) [exUserAfter] 1 =
      Except.error "Not found." := by
  refine ⟨rfl, rfl, rfl⟩

/-- C4 (amended): a successful destroy keeps every user id in the store (the
record is never removed), leaves the target with is_active false, excludes it
from the active-user queryset and listing, and afterwards the User retrieve
operation fails with the not-found outcome for every caller, an admin
included. -/
theorem C4_soft_delete_hidden (users : List UserRec) (pk : Nat)
    (r : HttpResponse) (users2 : List UserRec)
    (h : user_destroy users pk = Except.ok (r, users2)) :
    users2.map (fun u => u.id) = users.map (fun u => u.id) ∧
    (∀ u ∈ users2, u.id = pk → u.is_active = false) ∧
    (∀ u ∈ user_queryset users2, u.id ≠ pk) ∧
    (∀ caller : Caller,
        user_retrieve caller users2 pk = Except.error "Not found.") := by
  unfold user_destroy at h
  cases hfind : (user_queryset users).find? (fun u => u.id = pk) with
  | none =>
      rw [hfind] at h
      exact Except.noConfusion h
  | some u0 =>
      rw [hfind] at h
      injection h with h1
      injection h1 with hr hu
      have hmap : ∀ u ∈ users2,
          u.id = pk → u.is_active = false := by
        intro u hu2 hid
        rw [← hu] at hu2
        rcases List.mem_map.mp hu2 with ⟨u1, hu1, rfl⟩
        by_cases hc : u1.id = pk
        · simp [hc]
        · rw [if_neg hc] at hid ⊢
          exact absurd hid hc
      have hq : ∀ u ∈ user_queryset users2, u.id ≠ pk := by
        intro u hu hid
        have h1 := (List.mem_filter.mp hu).1
        have h2 := (List.mem_filter.mp hu).2
        rw [hmap u h1 hid] at h2
        exact Bool.noConfusion h2
      refine ⟨?_, hmap, hq, ?_⟩
      · rw [← hu, List.map_map]
        apply List.map_congr_left
        intro u _
        by_cases hc : u.id = pk <;> simp [Function.comp, hc]
      · intro caller
        have hnone : (user_queryset users2).find? (fun u => u.id = pk) =
            none := by
          rw [List.find?_eq_none]
          intro u hu
          simpa using hq u hu
        simp [user_retrieve, hnone]

/-- Witness for the amended C4 on the fixture store. -/
theorem C4_soft_delete_hidden_witness :
    [exUserAfter].map (fun u => u.id) = [exUser].map (fun u => u.id) ∧
    (∀ u ∈ [exUserAfter], u.id = 1 → u.is_active = false) ∧
    (∀ u ∈ user_queryset [exUserAfter], u.id ≠ 1) ∧
    (∀ caller : Caller,
        user_retrieve caller [exUserAfter] 1 = Except.error "Not found.") :=
  C4_soft_delete_hidden [exUser] 1 ⟨204, ""⟩ [exUserAfter] rfl

/-- Appending the keyword `user` to any keyword list makes the Vendor row
construction fail: either an earlier keyword already failed, or the final
`user` key hits the unexpected-keyword branch, because the Vendor model has
no field of that name. -/
theorem vendor_model_create_user_append (nextId : Nat)
    (data : List (String × FieldValue)) (n : Nat) :
    ∃ e, vendor_model_create nextId (data ++ [("user", FieldValue.nat n)]) =
      Except.error e := by
  unfold vendor_model_create
  rw [List.foldl_append]
  cases List.foldl vendor_assign
      (Except.ok { id := nextId, name := "", owner := none }) data with
  | error e => exact ⟨e, rfl⟩
  | ok v => exact ⟨_, rfl⟩

/-- C5: VendorViewSet.perform_create passes the caller through the keyword
`user`, but the Vendor model field is `owner`, so every Vendor create fails
with a TypeError before the owner is bound or the is_vendor flag is touched —
evaluated concretely at a non-vendor caller, and in general for every caller,
payload and store. -/
theorem C5_vendor_create_keyword_bug :
    vendor_perform_create exUser [("name", FieldValue.str "The Shop")] []
        [exUser] =
      Except.error
        "TypeError: Vendor() got an unexpected keyword argument user" ∧
    (∀ (caller : UserRec) (validated : List (String × FieldValue))
        (vendors : List VendorRec) (users : List UserRec),
        ∃ e, vendor_perform_create caller validated vendors users =
          Except.error e) := by
  constructor
  · rfl
  · intro caller validated vendors users
    unfold vendor_perform_create
    rcases vendor_model_create_user_append (vendors.length + 1) validated
        caller.id with ⟨e, he⟩
    rw [he]
    exact ⟨e, rfl⟩

/-- C7: on write the related field resolves a raw Product identifier through
queryset.get — failing with the does-not-exist error when no Product carries
the identifier, returning the matching Product when one does — and on read it
renders the Product as the restricted custom field subset, a key-value
representation and never a bare identifier. -/
theorem C7_custom_related_field (products : List ProductRec) (data : Nat) :
    ((∀ p ∈ products, p.id ≠ data) →
        product_to_internal_value products data =
          Except.error "Product matching query does not exist.") ∧
    (∀ p : ProductRec, products.find? (fun q => q.id = data) = some p →
        product_to_internal_value products data = Except.ok p ∧
          p ∈ products ∧ p.id = data) ∧
    (∀ p : ProductRec,
        product_to_representation p =
          [("id", FieldValue.nat p.id), ("name", FieldValue.str p.name),
           ("brand", FieldValue.str p.brand),
           ("price", FieldValue.nat p.price),
           ("is_available", FieldValue.bool p.is_available)] ∧
        ((product_to_representation p).map Prod.fst).Perm
          product_custom_fields) := by
  refine ⟨?_, ?_, ?_⟩
  · intro hnone
    have h : products.find? (fun q => q.id = data) = none := by
      rw [List.find?_eq_none]
      intro x hx
      simpa using hnone x hx
    simp [product_to_internal_value, h]
  · intro p hp
    refine ⟨by simp [product_to_internal_value, hp],
      List.mem_of_find?_eq_some hp, ?_⟩
    simpa using List.find?_some hp
  · intro p
    refine ⟨rfl, ?_⟩
    have h : (product_to_representation p).map Prod.fst =
        ["id", "name", "brand", "price", "is_available"] := rfl
    rw [h]
    decide

/-- Witness for C7 on a concrete store: a dangling identifier fails, a live
identifier resolves to its Product. -/
theorem C7_custom_related_field_witness :
    product_to_internal_value [exP1, exP2] 9 =
      Except.error "Product matching query does not exist." ∧
    (product_to_internal_value [exP1, exP2] 2 = Except.ok exP2 ∧
      exP2 ∈ [exP1, exP2] ∧ exP2.id = 2) :=
  ⟨(C7_custom_related_field [exP1, exP2] 9).1 (by decide),
   (C7_custom_related_field [exP1, exP2] 2).2.1 exP2 (by decide)⟩

/-- Fixture create request trying to smuggle role flags. -/
def c8_reqA : UserCreateRequest :=
  { email := "b@example.com", password := "secret",
    is_active := some false, is_staff := some true, is_vendor := some true }

/-- The same create request without role flags. -/
def c8_reqB : UserCreateRequest :=
  { email := "b@example.com", password := "secret",
    is_active := none, is_staff := none, is_vendor := none }

/-- C8: a created user stores the hash of the submitted plaintext, never a
plaintext value; its three role flags take the defaults; and two create
requests agreeing on email and password produce users with identical flags
whatever flag values the callers supplied. -/
theorem C8_user_create_defaults (nextId : Nat) (r r2 : UserCreateRequest) :
    (user_perform_create nextId r).password = make_password r.password ∧
    (∀ s : String,
        (user_perform_create nextId r).password ≠ StoredPassword.plain s) ∧
    (user_perform_create nextId r).is_active = true ∧
    (user_perform_create nextId r).is_staff = false ∧
    (user_perform_create nextId r).is_vendor = false ∧
    (r.email = r2.email → r.password = r2.password →
      ((user_perform_create nextId r).is_active =
          (user_perform_create nextId r2).is_active ∧
        (user_perform_create nextId r).is_staff =
          (user_perform_create nextId r2).is_staff ∧
        (user_perform_create nextId r).is_vendor =
          (user_perform_create nextId r2).is_vendor)) := by
  refine ⟨rfl, ?_, rfl, rfl, rfl, ?_⟩
  · intro s h
    exact StoredPassword.noConfusion h
  · intro _ _
    exact ⟨rfl, rfl, rfl⟩

/-- Witness for C8: the two fixture requests differ only in the caller
supplied flags and yield users with identical flags and a hashed password. -/
theorem C8_user_create_defaults_witness :
    (user_perform_create 1 c8_reqA).password = make_password "secret" ∧
    ((user_perform_create 1 c8_reqA).is_active =
        (user_perform_create 1 c8_reqB).is_active ∧
      (user_perform_create 1 c8_reqA).is_staff =
        (user_perform_create 1 c8_reqB).is_staff ∧
      (user_perform_create 1 c8_reqA).is_vendor =
        (user_perform_create 1 c8_reqB).is_vendor) :=
  ⟨(C8_user_create_defaults 1 c8_reqA c8_reqB).1,
   (C8_user_create_defaults 1 c8_reqA c8_reqB).2.2.2.2.2 rfl rfl⟩

/-- Fixture product with is_available false. -/
def exPHidden : ProductRec :=
  { id := 3, name := "Ghost", brand := "Acme", price := 5,
    is_available := false, quantity := 2, description := "", vendor := 1 }

/-- C10: a Product whose is_available flag is false is absent from the Product
listing and its retrieval fails with the not-found outcome, for every caller,
because the controller queryset filters on is_available. -/
theorem C10_unavailable_products_hidden (caller : Caller)
    (products : List ProductRec) (p : ProductRec)
    (hmem : p ∈ products) (hav : p.is_available = false)
    (hids : (products.map (fun q => q.id)).Nodup) :
    p ∉ product_list caller products ∧
    product_retrieve caller products p.id = Except.error "Not found." := by
  have hinj := List.inj_on_of_nodup_map hids
  constructor
  · intro hp
    simp only [product_list, product_queryset] at hp
    have h2 := (List.mem_filter.mp hp).2
    rw [hav] at h2
    exact Bool.noConfusion h2
  · have hnone : (product_queryset products).find? (fun q => q.id = p.id) =
        none := by
      rw [List.find?_eq_none]
      intro q hq
      have h1 := (List.mem_filter.mp hq).1
      have h2 := (List.mem_filter.mp hq).2
      intro hqp
      have hqe : q = p := hinj h1 hmem (by simpa using hqp)
      rw [hqe, hav] at h2
      exact Bool.noConfusion h2
    simp [product_retrieve, hnone]

/-- Witness for C10: the hidden fixture product is invisible to an admin. -/
theorem C10_unavailable_products_hidden_witness :
    exPHidden ∉ product_list (Caller.user 1 true) [exP1, exPHidden] ∧
    product_retrieve (Caller.user 1 true) [exP1, exPHidden] exPHidden.id =
      Except.error "Not found." :=
  C10_unavailable_products_hidden (Caller.user 1 true) [exP1, exPHidden]
    exPHidden (by decide) rfl (by decide)

end Api
